import Mathlib

/-! Verification of the fallen-angel scanner pipeline
(src/fallen_angel_scanner.py) against its natural-language specification.

The Python source is shallowly embedded below.  Prices, percentages and
market capitalisations are modelled as rationals (ℚ); Python floats carry
exact decimal constants here (0.3 becomes 3/10 and so on).  Timestamps are
modelled as rational day counts, so a Python timedelta's whole-day count
`(a - b).days` becomes the integer floor of the rational difference.
Per-symbol network access (yfinance) is an external collaborator: every
fetch result is an explicit input, with a missing value (None / a raised
exception caught by the surrounding try block) modelled as Option.none.
Python dicts keyed by ticker are association lists updated in place.
-/

namespace FallenAngel

/-! Part: String helpers

Python substring tests (the `in` operator on str), lower-casing and
joining are modelled over the character lists of Lean strings. -/

/-- Does the pattern occur as a contiguous sublist?  Models Python's
substring containment test on strings. -/
def hasSubList (pat : List Char) : List Char → Bool
  | [] => pat.isEmpty
  | c :: rest => pat.isPrefixOf (c :: rest) || hasSubList pat rest

/-- Python: pat in text. -/
def containsSub (text pat : String) : Bool := hasSubList pat.data text.data

/-- Python: s.lower() (the source only lower-cases ASCII headlines). -/
def lowerStr (s : String) : String := String.mk (s.data.map Char.toLower)

/-- Python: sep.join(parts). -/
def joinWith (sep : String) : List String → String
  | [] => ""
  | [s] => s
  | s :: rest => s ++ sep ++ joinWith sep rest

/-- Python: s.endswith(suffix). -/
def strEndsWith (s suffix : String) : Bool := suffix.data.isSuffixOf s.data

/-! Part: Configuration constants (fallen_angel_scanner.py lines 49-58) -/

/-- Minimum drop percentage. -/
def MIN_DROP_PERCENT : ℚ := 20

/-- Look for drops over last 21 days. -/
def DROP_LOOKBACK_DAYS : Nat := 21

/-- Minimum 2 billion dollar market cap. -/
def MIN_MARKET_CAP : ℚ := 2000000000

/-- Maximum candidates to report.  Declared in the source configuration
block but never read by any function of the script. -/
def MAX_CANDIDATES : Nat := 10

/-- Do not re-send the same stock within 14 days. -/
def DEDUP_DAYS : ℤ := 14

/-- Alert if a tracked stock drops another 10 percent. -/
def PRICE_ALERT_THRESHOLD : ℚ := 1/10

/-! Part: Memory store (lines 64-117) -/

/-- One entry of tracked_prices: price at notification time plus the
notification date (a day count here, a date string in the source). -/
structure TrackedPrice where
  price : ℚ
  date : ℚ
deriving Repr, DecidableEq

/-- The persisted scanner memory: ticker-keyed mappings, modelled as
association lists with unique keys (Python dicts). -/
structure Memory where
  sent_stocks : List (String × ℚ)
  tracked_prices : List (String × TrackedPrice)
deriving Repr, DecidableEq

/-- Dict lookup on an association list. -/
def lookupKey {α : Type} (k : String) : List (String × α) → Option α
  | [] => none
  | (k', v) :: rest => if k = k' then some v else lookupKey k rest

/-- Dict assignment d[k] = v on an association list: replaces the existing
binding or appends a fresh one. -/
def dictInsert {α : Type} (k : String) (v : α) : List (String × α) → List (String × α)
  | [] => [(k, v)]
  | (k', v') :: rest => if k = k' then (k, v) :: rest else (k', v') :: dictInsert k v rest

/-- should_send_stock (lines 82-90): a stock is skipped when it appears in
sent_stocks and the whole-day difference between now and the stored
timestamp is below DEDUP_DAYS. -/
def should_send_stock (ticker : String) (now : ℚ) (memory : Memory) : Bool :=
  match lookupKey ticker memory.sent_stocks with
  | some last_sent => if Int.floor (now - last_sent) < DEDUP_DAYS then false else true
  | none => true

/-- One emitted averaging-down alert (the dict built at lines 106-112). -/
structure PriceAlert where
  ticker : String
  original_price : ℚ
  current_price : ℚ
  additional_drop : ℚ
  sent_date : ℚ
deriving Repr, DecidableEq

/-- Loop body of check_price_alerts for one tracked entry; the latest
close for the ticker is an external fetch, none modelling the caught
exception (the entry is then skipped). -/
def check_price_alert_one (fetch : String → Option ℚ) (entry : String × TrackedPrice) :
    Option PriceAlert :=
  match fetch entry.1 with
  | none => none
  | some current_price =>
    let original_price := entry.2.price
    let drop_since_alert := current_price / original_price - 1
    if drop_since_alert ≤ -PRICE_ALERT_THRESHOLD then
      some { ticker := entry.1, original_price := original_price,
             current_price := current_price,
             additional_drop := drop_since_alert * 100, sent_date := entry.2.date }
    else none

/-- check_price_alerts (lines 92-117): scans every entry of
tracked_prices, independently of the Stage 1/2 results of the run. -/
def check_price_alerts (memory : Memory) (fetch : String → Option ℚ) : List PriceAlert :=
  memory.tracked_prices.filterMap (check_price_alert_one fetch)

/-! Part: Market helpers (lines 123-149) -/

/-- get_market_info: market tag and currency from the ticker suffix. -/
def get_market_info (ticker : String) : String × String :=
  if strEndsWith ticker ".WA" then ("🇵🇱 Poland", "PLN")
  else if strEndsWith ticker ".L" then ("🇬🇧 UK", "GBP")
  else if strEndsWith ticker ".TA" then ("🇮🇱 Israel", "ILS")
  else if strEndsWith ticker ".DE" then ("🇩🇪 Germany", "EUR")
  else ("🇺🇸 US", "USD")

/-- get_broker_recommendation: broker dict lookups with their defaults. -/
def get_broker_recommendation (market : String) : String × String :=
  let broker :=
    if market = "🇺🇸 US" then "📱 Revolut"
    else if market = "🇵🇱 Poland" then "🏦 mBank eMakler"
    else if market = "🇬🇧 UK" then "🏦 mBank eMakler"
    else if market = "🇩🇪 Germany" then "🏦 mBank eMakler"
    else if market = "🇮🇱 Israel" then "🏦 Bank Leumi"
    else "❓"
  let alt :=
    if market = "🇺🇸 US" then "or mBank eMakler"
    else if market = "🇬🇧 UK" then "or Revolut"
    else ""
  (broker, alt)

/-! Part: Stage 1 quick filter (lines 155-215) -/

/-- The per-ticker data Stage 1 fetches: info.get of marketCap (absent
field gives the default 0) and the one-month close series ordered by
date. -/
structure Stage1Data where
  marketCap : Option ℚ
  closes : List ℚ
deriving Repr, DecidableEq

/-- A Stage 1 survivor (the dict built at lines 203-208). -/
structure Candidate where
  ticker : String
  current_price : ℚ
  drop_pct : ℚ
  market_cap : ℚ
deriving Repr, DecidableEq

/-- Loop body of stage1_quick_filter for one ticker.  The whole body sits
in a try block, so a failed fetch (none) skips the symbol; a market cap
below the floor, a series shorter than 10 observations, or an
insufficient drop also skip it (continue).  The close at
iloc[-min(DROP_LOOKBACK_DAYS, len)] is the element at forward index
len - min(DROP_LOOKBACK_DAYS, len). -/
def stage1_filter_one (ticker : String) (d : Option Stage1Data) : Option Candidate :=
  match d with
  | none => none
  | some d =>
    let market_cap := d.marketCap.getD 0
    if market_cap < MIN_MARKET_CAP then none
    else if d.closes.length < 10 then none
    else
      let current_price := d.closes.getD (d.closes.length - 1) 0
      let lookback_price := d.closes.getD (d.closes.length - min DROP_LOOKBACK_DAYS d.closes.length) 0
      let drop_pct := ((current_price - lookback_price) / lookback_price) * 100
      if drop_pct ≤ -MIN_DROP_PERCENT then
        some { ticker := ticker, current_price := current_price,
               drop_pct := drop_pct, market_cap := market_cap }
      else none

/-- stage1_quick_filter over a (deduplicated) ticker universe with a
per-ticker data source. -/
def stage1_quick_filter (tickers : List String) (data : String → Option Stage1Data) :
    List Candidate :=
  tickers.filterMap fun t => stage1_filter_one t (data t)

/-! Part: Stage 2: news, fundamentals, risk (lines 221-342) -/

/-- One yfinance news item (title and publisher are the fields read). -/
structure NewsItem where
  title : String
  publisher : String
deriving Repr, DecidableEq

/-- search_recent_news (lines 236-258).  The fetched item list is an
external input; none models the caught exception, whose message string is
the second argument.  Only the first five items are used; items with an
empty title are dropped; when no usable headline remains the generic
fallback line is returned. -/
def search_recent_news (fetched : Option (List NewsItem)) (errMsg : String) : List String :=
  match fetched with
  | none => ["Unable to fetch news: " ++ errMsg]
  | some news =>
    let news_items := news.take 5
    let headlines := news_items.filterMap fun item =>
      if item.title ≠ "" then some (item.title ++ " (" ++ item.publisher ++ ")") else none
    if headlines ≠ [] then headlines
    else ["No specific news found - check market-wide trends"]

/-- Keywords indicating temporary issues (lines 263-267). -/
def temporary_keywords : List String :=
  ["guidance", "miss", "earnings", "outlook", "forecast",
   "downgrade", "analyst", "sector", "market", "selloff",
   "valuation", "profit-taking", "rotation"]

/-- Keywords indicating serious problems (lines 270-274). -/
def serious_keywords : List String :=
  ["fraud", "lawsuit", "investigation", "scandal", "bankruptcy",
   "delisting", "default", "layoff", "restructur", "closure",
   "recall", "criminal", "sec inquiry"]

/-- analyze_news_sentiment (lines 260-286): keyword counting over the
lower-cased concatenation of the headlines; serious keywords win over
temporary ones, and with no match the fallback classification is
returned. -/
def analyze_news_sentiment (headlines : List String) : String × String :=
  let news_text := lowerStr (joinWith " " headlines)
  let temp_count := (temporary_keywords.filter fun kw => containsSub news_text kw).length
  let serious_count := (serious_keywords.filter fun kw => containsSub news_text kw).length
  if serious_count > 0 then ("🔴 SERIOUS ISSUE", "Fundamental problem detected")
  else if temp_count > 0 then ("🟢 TEMPORARY NOISE", "Likely earnings/guidance miss or sector rotation")
  else ("🟡 UNCLEAR", "Need manual research")

/-- The yfinance info fields the scanner reads; every field may be
absent, in which case info.get supplies the per-field default. -/
structure TickerInfo where
  marketCap : Option ℚ
  totalDebt : Option ℚ
  totalStockholderEquity : Option ℚ
  totalCurrentAssets : Option ℚ
  totalCurrentLiabilities : Option ℚ
  totalCash : Option ℚ
  totalRevenue : Option ℚ
  longName : Option String
  shortName : Option String
deriving Repr, DecidableEq

/-- The financial-health snapshot (the dict built at lines 304-309). -/
structure FinancialHealth where
  debt_to_equity : ℚ
  current_ratio : ℚ
  cash : ℚ
  revenue : ℚ
deriving Repr, DecidableEq

/-- get_financial_health (lines 288-311).  The info access sits in a try
block: none models the caught exception and yields None.  Defaults:
totalDebt 0, totalStockholderEquity 1, totalCurrentAssets 0,
totalCurrentLiabilities 1, totalCash 0, totalRevenue 0.  Non-positive
equity yields the sentinel 999; non-positive current liabilities yield
current_ratio 0; neither ratio ever divides by zero. -/
def get_financial_health (info : Option TickerInfo) : Option FinancialHealth :=
  match info with
  | none => none
  | some info =>
    let total_debt := info.totalDebt.getD 0
    let total_equity := info.totalStockholderEquity.getD 1
    let debt_to_equity := if total_equity > 0 then total_debt / total_equity else 999
    let current_assets := info.totalCurrentAssets.getD 0
    let current_liabilities := info.totalCurrentLiabilities.getD 1
    let current_ratio := if current_liabilities > 0 then current_assets / current_liabilities else 0
    let cash := info.totalCash.getD 0
    let revenue := info.totalRevenue.getD 0
    some { debt_to_equity := debt_to_equity, current_ratio := current_ratio,
           cash := cash, revenue := revenue }

/-- calculate_risk_score (lines 313-342).  All point adjustments in the
source are integral, so the running score is an integer and Python's
round is the identity on it; the result is clamped to [1, 10].  The news
classification enters through substring tests on the sentiment label.
With no financial health the fixed conservative score 8 is returned. -/
def calculate_risk_score (financial_health : Option FinancialHealth)
    (news_sentiment : String) : ℤ :=
  match financial_health with
  | none => 8
  | some fh =>
    let score : ℤ := 5
    let score := if fh.debt_to_equity < 3/10 then score - 2
                 else if fh.debt_to_equity > 1 then score + 2 else score
    let score := if fh.current_ratio > 2 then score - 1
                 else if fh.current_ratio < 1 then score + 2 else score
    let score := if fh.revenue = 0 then score + 2 else score
    let score := if containsSub news_sentiment "SERIOUS" then score + 3
                 else if containsSub news_sentiment "TEMPORARY" then score - 1 else score
    max 1 (min 10 score)

/-- get_earnings_date (lines 221-234): the earnings timestamp from the
external calendar (none models an absent entry or the caught exception);
only dates 0 to 14 whole days ahead are reported, as the formatted date
string paired with the day count. -/
def get_earnings_date (calendar : Option (String × ℚ)) (now : ℚ) :
    Option String × Option ℤ :=
  match calendar with
  | none => (none, none)
  | some (dateStr, ts) =>
    let days_until := Int.floor (ts - now)
    if 0 ≤ days_until ∧ days_until ≤ 14 then (some dateStr, some days_until)
    else (none, none)

/-- pandas Series.quantile(0.80) with the default linear interpolation:
sort ascending, take the virtual position (n-1)*0.80 and interpolate
between its floor and ceiling neighbours.  Since 0.80 = 4/5, floor and
ceiling are computed by natural division; the empty series is given the
value 0 (pandas would produce NaN, which no claim exercises). -/
def quantile80 (xs : List ℚ) : ℚ :=
  let s := List.insertionSort (fun a b : ℚ => a ≤ b) xs
  let n := s.length
  if n = 0 then 0 else
    let num := (n - 1) * 4
    let lo := num / 5
    let hi := if num % 5 = 0 then lo else lo + 1
    let h : ℚ := (num : ℚ) / 5
    let xlo := s.getD lo 0
    let xhi := s.getD hi 0
    xlo + (h - (lo : ℚ)) * (xhi - xlo)

/-- The fully analysed record for one surviving candidate (the dict built
at lines 391-408). -/
structure AnalyzedStock where
  ticker : String
  company : String
  market : String
  currency : String
  broker : String
  alt_broker : String
  current_price : ℚ
  drop_pct : ℚ
  recovery_potential : ℚ
  risk_score : ℤ
  earnings_date : Option String
  days_to_earnings : Option ℤ
  news_headlines : List String
  news_sentiment : String
  sentiment_reason : String
  financial_health : Option FinancialHealth
deriving Repr, DecidableEq

/-- Everything the Stage 2 loop body fetches for one ticker.  info is the
direct stock.info access of line 363; health_info is the separate info
access inside get_financial_health (none models its caught exception);
news none models the caught exception of search_recent_news with message
news_err; year_closes is the one-year close history used for the recovery
estimate. -/
structure Stage2Fetch where
  info : TickerInfo
  health_info : Option TickerInfo
  calendar : Option (String × ℚ)
  news : Option (List NewsItem)
  news_err : String
  year_closes : List ℚ
deriving Repr, DecidableEq

/-- Loop body of stage2_deep_analysis (lines 352-414) for one candidate.
The dedup check runs first; then the try block builds the record from
the fetched data (a fetch failure, none, skips the candidate).  No
stability or volatility quantity is computed anywhere in the body.  ℚ
division is total, so the embedding also produces a record when
current_price is 0 where Python would raise and skip; the claims below
only use positive prices. -/
def stage2_process_one (memory : Memory) (now : ℚ) (candidate : Candidate)
    (fetch : Option Stage2Fetch) : Option AnalyzedStock :=
  if should_send_stock candidate.ticker now memory then
    match fetch with
    | none => none
    | some f =>
      let company_name := f.info.longName.getD (f.info.shortName.getD candidate.ticker)
      let mc := get_market_info candidate.ticker
      let br := get_broker_recommendation mc.1
      let health := get_financial_health f.health_info
      let earn := get_earnings_date f.calendar now
      let news_headlines := search_recent_news f.news f.news_err
      let sentiment := analyze_news_sentiment news_headlines
      let risk := calculate_risk_score health sentiment.1
      let stable_high := quantile80 f.year_closes
      let recovery_potential := ((stable_high / candidate.current_price) - 1) * 100
      some { ticker := candidate.ticker, company := company_name,
             market := mc.1, currency := mc.2, broker := br.1, alt_broker := br.2,
             current_price := candidate.current_price, drop_pct := candidate.drop_pct,
             recovery_potential := recovery_potential, risk_score := risk,
             earnings_date := earn.1, days_to_earnings := earn.2,
             news_headlines := news_headlines.take 3,
             news_sentiment := sentiment.1, sentiment_reason := sentiment.2,
             financial_health := health }
  else none

/-- stage2_deep_analysis over the Stage 1 candidate list with a
per-ticker data source. -/
def stage2_deep_analysis (memory : Memory) (now : ℚ) (candidates : List Candidate)
    (fetch : String → Option Stage2Fetch) : List AnalyzedStock :=
  candidates.filterMap fun c => stage2_process_one memory now c (fetch c.ticker)

/-! Part: Report ordering and memory write-back (lines 423-427 and 653-663) -/

/-- The ordering step of generate_email_html (line 427): the analysed
records are stable-sorted in place by ascending risk_score and then all
rendered in that order.  No risk-ceiling filter and no truncation to
MAX_CANDIDATES occurs.  Python's list.sort is stable; insertion sort with
a non-strict comparison preserves the order of equal keys. -/
def generate_email_html_order (analyzed_stocks : List AnalyzedStock) : List AnalyzedStock :=
  List.insertionSort (fun a b => a.risk_score ≤ b.risk_score) analyzed_stocks

/-- The memory update of main (lines 655-660), performed for every stock
of the run's output: sent_stocks[ticker] = now and
tracked_prices[ticker] = current price and date. -/
def update_memory_for_sent (memory : Memory) (now today : ℚ)
    (stocks : List AnalyzedStock) : Memory :=
  stocks.foldl
    (fun m s =>
      { sent_stocks := dictInsert s.ticker now m.sent_stocks,
        tracked_prices := dictInsert s.ticker { price := s.current_price, date := today } m.tracked_prices })
    memory

/-- The notification tail of main (lines 653-663): only when send_email
reported success is the memory updated and save_memory called.  The
boolean of the result records whether save_memory ran. -/
def main_notify_and_update (send_ok : Bool) (memory : Memory) (now today : ℚ)
    (stocks : List AnalyzedStock) : Memory × Bool :=
  if send_ok then (update_memory_for_sent memory now today stocks, true)
  else (memory, false)

/-! Part: Spec-modelled stability analyzer

The specification's Stability Analyzer (spec section 4.2) has no
counterpart anywhere in the source: stage2_deep_analysis computes no
volatility measure.  To state claims about it, the spec's formula is
modelled here, and only here, from the spec's own words. -/

/-- Modelled from the spec: arithmetic mean of a close series (section
4.2, the denominator of the coefficient of variation). -/
def listMean (xs : List ℚ) : ℚ := xs.sum / xs.length

/-- Modelled from the spec: sample variance of a close series, the
square of the stdev of section 4.2. -/
def sampleVariance (xs : List ℚ) : ℚ :=
  if xs.length ≤ 1 then 0
  else (xs.map fun x => (x - listMean xs)^2).sum / ((xs.length : ℚ) - 1)

/-- Modelled from the spec (section 4.2): the stability window is the
part of the series immediately before the drop window, here everything
before the final DROP_LOOKBACK_DAYS observations. -/
def stability_window (closes : List ℚ) : List ℚ :=
  closes.take (closes.length - DROP_LOOKBACK_DAYS)

/-- Modelled from the spec (section 4.2): pass iff the coefficient of
variation stdev/mean*100 is below the configured percentage ceiling.
Stated on squares so as to stay inside ℚ: for non-negative ceiling and
mean this is equivalent to stdev/mean*100 < ceiling. -/
def stability_pass (closes : List ℚ) (ceiling : ℚ) : Prop :=
  sampleVariance closes * 10000 < ceiling^2 * (listMean closes)^2

instance (closes : List ℚ) (ceiling : ℚ) : Decidable (stability_pass closes ceiling) := by
  unfold stability_pass
  infer_instance

/-! Part: Ordering instances for the report sort -/

instance : IsTotal AnalyzedStock (fun a b => a.risk_score ≤ b.risk_score) :=
  ⟨fun a b => le_total a.risk_score b.risk_score⟩

instance : IsTrans AnalyzedStock (fun a b => a.risk_score ≤ b.risk_score) :=
  ⟨fun _ _ _ hab hbc => le_trans hab hbc⟩

/-! Part: Concrete inputs used by witnesses and counterexamples -/

/-- The empty memory store of a first run. -/
def exMem : Memory := { sent_stocks := [], tracked_prices := [] }

/-- A memory store with ticker X notified at day 0. -/
def exMemSent : Memory := { sent_stocks := [("X", 0)], tracked_prices := [] }

/-- A memory store tracking ticker X at reference price 100 (day 0). -/
def exTracked : Memory := { sent_stocks := [], tracked_prices := [("X", { price := 100, date := 0 })] }

/-- A fresh-price source returning 88 for every ticker. -/
def fetch88 : String → Option ℚ := fun _ => some 88

/-- A fresh-price source returning 95 for every ticker. -/
def fetch95 : String → Option ℚ := fun _ => some 95

/-- An info snapshot with every field absent. -/
def exInfoNone : TickerInfo :=
  { marketCap := none, totalDebt := none, totalStockholderEquity := none,
    totalCurrentAssets := none, totalCurrentLiabilities := none,
    totalCash := none, totalRevenue := none, longName := none, shortName := none }

/-- A Stage 1 survivor: price 70 after a 30 percent drop. -/
def exCand : Candidate :=
  { ticker := "EX", current_price := 70, drop_pct := -30, market_cap := 2000000000 }

/-- A Stage 2 fetch whose one-year history is wildly volatile before the
final 21-session drop window (closes alternating between 10 and 1000),
with no usable fundamentals or news. -/
def exFetchA : Stage2Fetch :=
  { info := exInfoNone, health_info := none, calendar := none,
    news := some [], news_err := "",
    year_closes := [10, 1000, 10, 1000] ++ List.replicate 21 100 }

/-- A placeholder record used only as the getD default below. -/
def junkStock : AnalyzedStock :=
  { ticker := "", company := "", market := "", currency := "", broker := "",
    alt_broker := "", current_price := 0, drop_pct := 0, recovery_potential := 0,
    risk_score := 0, earnings_date := none, days_to_earnings := none,
    news_headlines := [], news_sentiment := "", sentiment_reason := "",
    financial_health := none }

/-- The record Stage 2 produces for exCand under exFetchA. -/
def exAnalyzedA : AnalyzedStock :=
  (stage2_process_one exMem 0 exCand (some exFetchA)).getD junkStock

/-- Fundamentals giving debt/equity 0.5, current ratio 1.5, revenue 1:
no adjustment of the point table fires on them. -/
def exInfoB : TickerInfo :=
  { marketCap := none, totalDebt := some 50, totalStockholderEquity := some 100,
    totalCurrentAssets := some 150, totalCurrentLiabilities := some 100,
    totalCash := some 0, totalRevenue := some 1, longName := none, shortName := none }

/-- A Stage 2 fetch with the neutral fundamentals exInfoB and no news. -/
def exFetchB : Stage2Fetch :=
  { info := exInfoNone, health_info := some exInfoB, calendar := none,
    news := some [], news_err := "", year_closes := [100] }

/-- A candidate that dropped 60 percent (severity beyond 50). -/
def exCand60 : Candidate :=
  { ticker := "EX", current_price := 40, drop_pct := -60, market_cap := 2000000000 }

/-- The same candidate with a 40 percent drop (severity below 50). -/
def exCand40 : Candidate :=
  { ticker := "EX", current_price := 40, drop_pct := -40, market_cap := 2000000000 }

/-- Stage 1 data of the spec's example: 30 trading sessions, constant
close 100 followed by a move to 70 at the end of the series. -/
def exSeries30 : Stage1Data :=
  { marketCap := some 2000000000, closes := List.replicate 29 100 ++ [70] }

/-- Ranker example record with recovery potential 5 and risk 9. -/
def exRank5 : AnalyzedStock := { junkStock with recovery_potential := 5, risk_score := 9 }

/-- Ranker example record with recovery potential 40 and risk 4. -/
def exRank40 : AnalyzedStock := { junkStock with recovery_potential := 40, risk_score := 4 }

/-- Ranker example record with recovery potential 22 and risk 6. -/
def exRank22 : AnalyzedStock := { junkStock with recovery_potential := 22, risk_score := 6 }

/-- A notified stock used by the memory write-back witness. -/
def exStockA : AnalyzedStock := { junkStock with ticker := "A", current_price := 55 }

/-- A degenerate balance sheet: negative equity, zero current
liabilities, nonzero revenue. -/
def exInfoDegen : TickerInfo :=
  { marketCap := none, totalDebt := some 10, totalStockholderEquity := some (-5),
    totalCurrentAssets := some 20, totalCurrentLiabilities := some 0,
    totalCash := some 0, totalRevenue := some 1, longName := none, shortName := none }

/-- The health snapshot the degenerate balance sheet produces. -/
def exHealthDegen : FinancialHealth :=
  { debt_to_equity := 999, current_ratio := 0, cash := 0, revenue := 1 }

/-! Part: Helper lemmas -/

/-- An option known to be some equals some of its getD value. -/
theorem Option_eq_some_getD {α : Type} {o : Option α} (d : α) (h : o.isSome = true) :
    o = some (o.getD d) := by
  cases o with
  | none => exact absurd h (by simp)
  | some v => rfl

/-- The risk score is clamped into [1, 10] for every input. -/
theorem calculate_risk_score_bounds (fh : Option FinancialHealth) (news : String) :
    1 ≤ calculate_risk_score fh news ∧ calculate_risk_score fh news ≤ 10 := by
  cases fh with
  | none => exact ⟨by norm_num [calculate_risk_score], by norm_num [calculate_risk_score]⟩
  | some fh =>
    simp only [calculate_risk_score]
    split <;> split <;> split <;> split <;> omega

/-! Part: C1 -/

/-- C1: every AnalyzedStock record produced by the Stage 2 pipeline
carries an integer risk_score between 1 and 10 inclusive, and the fixed
conservative score returned when fundamentals are unknown is 8, which
also lies in this range. -/
theorem C1_risk_score_in_range (memory : Memory) (now : ℚ) (c : Candidate)
    (f : Option Stage2Fetch) (a : AnalyzedStock)
    (h : stage2_process_one memory now c f = some a) :
    (1 ≤ a.risk_score ∧ a.risk_score ≤ 10) ∧
    ∀ news, calculate_risk_score none news = 8 ∧
      1 ≤ calculate_risk_score none news ∧ calculate_risk_score none news ≤ 10 := by
  refine ⟨?_, fun news => ⟨rfl, by norm_num [calculate_risk_score], by norm_num [calculate_risk_score]⟩⟩
  unfold stage2_process_one at h
  split at h
  · cases f with
    | none => exact absurd h (by simp)
    | some f =>
      rw [Option.some.injEq] at h
      subst h
      exact calculate_risk_score_bounds _ _
  · exact absurd h (by simp)

/-- Closed witness for C1: the hypotheses hold at the concrete first-run
inputs exMem, exCand, exFetchA. -/
theorem C1_witness : 1 ≤ exAnalyzedA.risk_score ∧ exAnalyzedA.risk_score ≤ 10 := by
  have hs : (stage2_process_one exMem 0 exCand (some exFetchA)).isSome = true := rfl
  have h : stage2_process_one exMem 0 exCand (some exFetchA) = some exAnalyzedA :=
    Option_eq_some_getD junkStock hs
  exact (C1_risk_score_in_range exMem 0 exCand (some exFetchA) exAnalyzedA h).1

/-! Part: C6 -/

/-- C6: the claim says that with no real headlines the classification is
UNCLEAR with a needs-manual-research annotation, and the source's own
fallback branch returns exactly that pair; but the fallback headline
produced by search_recent_news contains the word market, which is a
member of temporary_keywords, so the classifier actually returns
TEMPORARY NOISE on the no-news path.  The code contradicts its intended
fallback: a code bug. -/
theorem C6_no_news_is_classified_temporary :
    search_recent_news (some []) "" = ["No specific news found - check market-wide trends"] ∧
    analyze_news_sentiment (search_recent_news (some []) "") =
      ("🟢 TEMPORARY NOISE", "Likely earnings/guidance miss or sector rotation") ∧
    analyze_news_sentiment (search_recent_news (some []) "") ≠
      ("🟡 UNCLEAR", "Need manual research") := by
  refine ⟨rfl, by decide, by decide⟩

/-! Part: C8 -/

/-- C8: the dedup gate drops a ticker exactly when it appears in
sent_stocks with a timestamp less than DEDUP_DAYS days old.  The code
compares the whole-day floor of the age, which for an integer window is
equivalent to comparing the exact rational age; a ticker absent from
sent_stocks is always kept. -/
theorem C8_dedup_gate (memory : Memory) (ticker : String) (now : ℚ) :
    (∀ t, lookupKey ticker memory.sent_stocks = some t →
      (should_send_stock ticker now memory = false ↔ now - t < (DEDUP_DAYS : ℚ))) ∧
    (lookupKey ticker memory.sent_stocks = none →
      should_send_stock ticker now memory = true) := by
  constructor
  · intro t ht
    simp only [should_send_stock, ht]
    constructor
    · intro h
      rw [← Int.floor_lt]
      by_contra hc
      rw [if_neg hc] at h
      exact Bool.true_eq_false.mp h
    · intro h
      rw [if_pos (Int.floor_lt.mpr h)]
  · intro h
    simp [should_send_stock, h]

/-- Closed witness for C8: ticker X notified at day 0 is dropped when
re-scanned at day 5 and eligible again at day 15 (14-day window). -/
theorem C8_witness :
    should_send_stock "X" 5 exMemSent = false ∧
    should_send_stock "X" 15 exMemSent = true := by
  have hlook : lookupKey "X" exMemSent.sent_stocks = some 0 := rfl
  constructor
  · exact ((C8_dedup_gate exMemSent "X" 5).1 0 hlook).mpr (by norm_num [DEDUP_DAYS])
  · cases hb : should_send_stock "X" 15 exMemSent with
    | true => rfl
    | false =>
      have h15 := ((C8_dedup_gate exMemSent "X" 15).1 0 hlook).mp hb
      norm_num [DEDUP_DAYS] at h15

/-! Part: C9 -/

/-- C9: the price-alert scan, over every entry of tracked_prices, emits
an alert exactly for the entries whose fetched price satisfies
current/reference - 1 ≤ -PRICE_ALERT_THRESHOLD, and the emitted alert
carries additional_drop equal to that relative change times 100. -/
theorem C9_price_alert_iff (memory : Memory) (fetch : String → Option ℚ) (a : PriceAlert) :
    a ∈ check_price_alerts memory fetch ↔
      ∃ tk e, (tk, e) ∈ memory.tracked_prices ∧ ∃ cur, fetch tk = some cur ∧
        cur / e.price - 1 ≤ -PRICE_ALERT_THRESHOLD ∧
        a = { ticker := tk, original_price := e.price, current_price := cur,
              additional_drop := (cur / e.price - 1) * 100, sent_date := e.date } := by
  unfold check_price_alerts
  rw [List.mem_filterMap]
  constructor
  · rintro ⟨⟨tk, e⟩, hmem, hone⟩
    unfold check_price_alert_one at hone
    rcases hf : fetch tk with _ | cur
    · rw [hf] at hone
      exact absurd hone (by simp)
    · rw [hf] at hone
      simp only at hone
      split at hone
      · rename_i hcond
        rw [Option.some.injEq] at hone
        exact ⟨tk, e, hmem, cur, hf, hcond, hone.symm⟩
      · exact absurd hone (by simp)
  · rintro ⟨tk, e, hmem, cur, hf, hcond, ha⟩
    refine ⟨(tk, e), hmem, ?_⟩
    unfold check_price_alert_one
    rw [hf]
    simp only
    rw [if_pos hcond, ha]

/-- Closed witness for C9: reference price 100 and current price 88 fire
an alert with additional drop -12; current price 95 fires none. -/
theorem C9_witness :
    ({ ticker := "X", original_price := 100, current_price := 88,
       additional_drop := -12, sent_date := 0 } : PriceAlert) ∈
        check_price_alerts exTracked fetch88 ∧
    check_price_alerts exTracked fetch95 = [] := by
  constructor
  · exact (C9_price_alert_iff exTracked fetch88 _).mpr
      ⟨"X", { price := 100, date := 0 }, by simp [exTracked], 88, rfl,
       by norm_num [PRICE_ALERT_THRESHOLD], by norm_num⟩
  · simp only [check_price_alerts, check_price_alert_one, exTracked, fetch95,
      PRICE_ALERT_THRESHOLD, List.filterMap]
    norm_num

/-! Part: C10 -/

/-- C10: the financial-health computation is total on degenerate balance
sheets: zero-or-negative equity gives the sentinel debt_to_equity 999
and zero-or-negative current liabilities give current_ratio 0, and on
such a snapshot (with nonzero revenue and a sentiment label naming
neither SERIOUS nor TEMPORARY) the risk scorer adds 2 for the leverage
sentinel and 2 for the liquidity sentinel, scoring 5 + 2 + 2 = 9. -/
theorem C10_degenerate_balance_sheet (info : TickerInfo) (e l r : ℚ)
    (he : info.totalStockholderEquity = some e) (he0 : e ≤ 0)
    (hl : info.totalCurrentLiabilities = some l) (hl0 : l ≤ 0)
    (hr : info.totalRevenue = some r) (hr0 : r ≠ 0) :
    ∃ fh, get_financial_health (some info) = some fh ∧
      fh.debt_to_equity = 999 ∧ fh.current_ratio = 0 ∧ fh.revenue = r ∧
      ∀ news, containsSub news "SERIOUS" = false → containsSub news "TEMPORARY" = false →
        calculate_risk_score (some fh) news = 5 + 2 + 2 := by
  have hfh : get_financial_health (some info) = some
      { debt_to_equity := 999, current_ratio := 0,
        cash := info.totalCash.getD 0, revenue := r } := by
    simp only [get_financial_health, he, hl, hr, Option.getD_some]
    rw [if_neg (not_lt.mpr he0), if_neg (not_lt.mpr hl0)]
  refine ⟨_, hfh, rfl, rfl, rfl, ?_⟩
  intro news hs ht
  simp only [calculate_risk_score]
  norm_num [hs, ht, hr0]

/-- Closed witness for C10: the concrete degenerate balance sheet
exInfoDegen yields the sentinel snapshot and risk score 9 under the
fallback sentiment label. -/
theorem C10_witness :
    get_financial_health (some exInfoDegen) = some exHealthDegen ∧
    exHealthDegen.debt_to_equity = 999 ∧ exHealthDegen.current_ratio = 0 ∧
    calculate_risk_score (some exHealthDegen) "🟡 UNCLEAR" = 5 + 2 + 2 := by
  obtain ⟨fh, h1, _, _, _, h5⟩ := C10_degenerate_balance_sheet exInfoDegen (-5) 0 1
    rfl (by norm_num) rfl (by norm_num) rfl (by norm_num)
  have heval : get_financial_health (some exInfoDegen) = some exHealthDegen := by
    simp only [get_financial_health, exInfoDegen, exHealthDegen, Option.getD_some]
    norm_num
  have hfh : fh = exHealthDegen := Option.some.inj (h1.symm.trans heval)
  refine ⟨heval, rfl, rfl, ?_⟩
  have h9 := h5 "🟡 UNCLEAR" (by decide) (by decide)
  rwa [hfh] at h9

/-! Part: C5 -/

/-- C5: once a ticker has passed the market-cap floor and the minimum
series length, Stage 1 computes drop_pct as the percentage change from
the close at forward index length - min(DROP_LOOKBACK_DAYS, length) (the
close lookback_days sessions back) to the last close, rejects exactly
when drop_pct > -MIN_DROP_PERCENT (returning none, the same non-error
skip as every other filter outcome), and otherwise emits the candidate
carrying that drop_pct. -/
theorem C5_stage1_drop_filter (ticker : String) (d : Stage1Data)
    (hcap : ¬ d.marketCap.getD 0 < MIN_MARKET_CAP) (hlen : ¬ d.closes.length < 10) :
    let current_price := d.closes.getD (d.closes.length - 1) 0
    let lookback_price := d.closes.getD (d.closes.length - min DROP_LOOKBACK_DAYS d.closes.length) 0
    let drop_pct := ((current_price - lookback_price) / lookback_price) * 100
    (stage1_filter_one ticker (some d) = none ↔ drop_pct > -MIN_DROP_PERCENT) ∧
    (drop_pct ≤ -MIN_DROP_PERCENT →
      stage1_filter_one ticker (some d) = some
        { ticker := ticker, current_price := current_price,
          drop_pct := drop_pct, market_cap := d.marketCap.getD 0 }) := by
  intro current_price lookback_price drop_pct
  simp only [stage1_filter_one, if_neg hcap, if_neg hlen]
  constructor
  · constructor
    · intro h
      by_contra hgt
      rw [if_pos (not_lt.mp hgt)] at h
      exact absurd h (by simp)
    · intro h
      rw [if_neg (not_le.mpr h)]
  · intro h
    rw [if_pos h]

/-- Closed witness for C5: the spec's example series (constant 100, then
70 at the lookback boundary) has market cap at the floor and 30
observations; Stage 1 yields drop_pct = -30 and the candidate passes
under MIN_DROP_PERCENT = 20. -/
theorem C5_witness :
    stage1_filter_one "EX" (some exSeries30) = some
      { ticker := "EX", current_price := 70, drop_pct := -30, market_cap := 2000000000 } := by
  have hcap : ¬ (exSeries30.marketCap.getD 0) < MIN_MARKET_CAP := by
    norm_num [exSeries30, MIN_MARKET_CAP]
  have hlen : ¬ exSeries30.closes.length < 10 := by
    norm_num [exSeries30]
  have hcur : exSeries30.closes.getD (exSeries30.closes.length - 1) 0 = 70 := by
    norm_num [exSeries30, List.replicate, List.getD]
  have hlook : exSeries30.closes.getD
      (exSeries30.closes.length - min DROP_LOOKBACK_DAYS exSeries30.closes.length) 0 = 100 := by
    norm_num [exSeries30, DROP_LOOKBACK_DAYS, List.replicate, List.getD]
  have h := (C5_stage1_drop_filter "EX" exSeries30 hcap hlen).2
  rw [hcur, hlook] at h
  have hdrop : (((70:ℚ) - 100) / 100) * 100 ≤ -MIN_DROP_PERCENT := by
    norm_num [MIN_DROP_PERCENT]
  have := h hdrop
  rw [this]
  norm_num [exSeries30]

/-! Part: C2 -/

/-- C2 counterexample: on the spec's own example input (recovery
potentials [5, 40, 22] with risk scores [9, 4, 6]) the email ordering
step keeps all three records, sorted by ascending risk score, yielding
recovery order [40, 22, 5]; the claimed output [40, 22] (only the two
records at or below risk ceiling 7) is therefore not produced. -/
theorem C2_counterexample :
    (generate_email_html_order [exRank5, exRank40, exRank22]).map
        AnalyzedStock.recovery_potential = [40, 22, 5] ∧
    ((generate_email_html_order [exRank5, exRank40, exRank22]).map
        AnalyzedStock.recovery_potential ≠ [40, 22]) := by
  constructor
  · decide
  · decide

/-- C2 (amended): the report ordering applied to the analysed records is
a stable sort by ascending risk_score; it applies no risk-ceiling
filter and no truncation, so its output is a permutation of the input
(in particular of the same length) sorted by risk score. -/
theorem C2_amended_email_order (l : List AnalyzedStock) :
    (generate_email_html_order l).Perm l ∧
    (generate_email_html_order l).Sorted (fun a b => a.risk_score ≤ b.risk_score) ∧
    (generate_email_html_order l).length = l.length := by
  refine ⟨List.perm_insertionSort _ l, List.sorted_insertionSort _ l, ?_⟩
  exact (List.perm_insertionSort _ l).length_eq

/-! Part: C3 -/

/-- C3 counterexample: a candidate whose pre-drop stability window (the
year history before the final 21 sessions) alternates between 10 and
1000 — coefficient of variation far above the 10 percent ceiling the
spec's scorer references — is still fully scored and emitted by Stage 2:
no stability check exists between Stage 1 and scoring. -/
theorem C3_counterexample :
    (stage2_process_one exMem 0 exCand (some exFetchA)).isSome = true ∧
    ¬ stability_pass (stability_window exFetchA.year_closes) 10 := by
  constructor
  · rfl
  · have hw : stability_window exFetchA.year_closes = [10, 1000, 10, 1000] := by
      norm_num [stability_window, exFetchA, DROP_LOOKBACK_DAYS, List.replicate]
    rw [hw]
    norm_num [stability_pass, sampleVariance, listMean]

/-- C3 (amended): the source performs no stability analysis at all:
every Stage 1 candidate that passes the dedup gate and whose Stage 2
data fetch succeeds proceeds to scoring and is emitted, regardless of
the volatility of its pre-drop price history. -/
theorem C3_amended_no_stability_check (memory : Memory) (now : ℚ) (c : Candidate)
    (f : Stage2Fetch) (h : should_send_stock c.ticker now memory = true) :
    (stage2_process_one memory now c (some f)).isSome = true := by
  unfold stage2_process_one
  rw [if_pos h]
  rfl

/-- Closed witness for C3: the dedup gate passes the concrete candidate
on an empty memory, and Stage 2 emits it. -/
theorem C3_witness : (stage2_process_one exMem 0 exCand (some exFetchA)).isSome = true :=
  C3_amended_no_stability_check exMem 0 exCand exFetchA rfl

/-! Part: C4 -/

/-- C4 counterexample: two Stage 2 runs identical except for the drop
severity (drop_pct -60, beyond 50, versus -40) produce the same risk
score 4; the claimed +1 drop-severity adjustment (which would score the
first run 4 + 1) does not exist, and neither drop_pct nor any stability
volatility is an input of calculate_risk_score. -/
theorem C4_counterexample :
    (stage2_process_one exMem 0 exCand60 (some exFetchB)).map AnalyzedStock.risk_score = some 4 ∧
    (stage2_process_one exMem 0 exCand40 (some exFetchB)).map AnalyzedStock.risk_score = some 4 ∧
    ((4 : ℤ) ≠ 4 + 1) := by
  have hsent : analyze_news_sentiment (search_recent_news (some []) "") =
      ("🟢 TEMPORARY NOISE", "Likely earnings/guidance miss or sector rotation") := by decide
  have hrisk : calculate_risk_score (get_financial_health (some exInfoB))
      "🟢 TEMPORARY NOISE" = 4 := by
    have hs : containsSub "🟢 TEMPORARY NOISE" "SERIOUS" = false := by decide
    have ht : containsSub "🟢 TEMPORARY NOISE" "TEMPORARY" = true := by decide
    simp only [get_financial_health, calculate_risk_score, exInfoB, Option.getD_some]
    norm_num [hs, ht]
  refine ⟨?_, ?_, by norm_num⟩ <;>
  · have hss : should_send_stock "EX" 0 exMem = true := rfl
    simp only [stage2_process_one, exCand60, exCand40, exFetchB]
    rw [if_pos hss]
    simp only [Option.map_some, hsent]
    exact congrArg some hrisk

/-- C4 (amended): calculate_risk_score takes only the financial-health
snapshot and the news classification; drop_pct and pre-drop volatility
are not inputs of the scorer, and the risk score of the record Stage 2
produces is invariant under any change of the candidate's drop_pct and
market_cap. -/
theorem C4_amended_risk_ignores_drop (memory : Memory) (now : ℚ) (f : Stage2Fetch)
    (c c' : Candidate) (ht : c.ticker = c'.ticker) :
    (stage2_process_one memory now c (some f)).map AnalyzedStock.risk_score =
    (stage2_process_one memory now c' (some f)).map AnalyzedStock.risk_score := by
  unfold stage2_process_one
  rw [ht]
  by_cases hss : should_send_stock c'.ticker now memory = true
  · rw [if_pos hss, if_pos hss]
    rfl
  · rw [if_neg hss, if_neg hss]

/-- Closed witness for C4 (amended): the concrete -60 and -40 runs share
a ticker, and their risk scores agree. -/
theorem C4_witness :
    (stage2_process_one exMem 0 exCand60 (some exFetchB)).map AnalyzedStock.risk_score =
    (stage2_process_one exMem 0 exCand40 (some exFetchB)).map AnalyzedStock.risk_score :=
  C4_amended_risk_ignores_drop exMem 0 exFetchB exCand60 exCand40 rfl

/-! Part: C7 -/

/-- Looking up the key just inserted yields the inserted value. -/
theorem lookupKey_dictInsert_self {α : Type} (k : String) (v : α) (l : List (String × α)) :
    lookupKey k (dictInsert k v l) = some v := by
  induction l with
  | nil => simp [dictInsert, lookupKey]
  | cons p rest ih =>
    obtain ⟨k', v'⟩ := p
    by_cases h : k = k'
    · simp [dictInsert, lookupKey, h]
    · simp [dictInsert, lookupKey, h, ih]

/-- Inserting under a different key leaves a lookup unchanged. -/
theorem lookupKey_dictInsert_ne {α : Type} (k k' : String) (hne : k ≠ k') (v : α)
    (l : List (String × α)) :
    lookupKey k (dictInsert k' v l) = lookupKey k l := by
  induction l with
  | nil => simp [dictInsert, lookupKey, hne]
  | cons p rest ih =>
    obtain ⟨k'', v''⟩ := p
    by_cases h : k' = k''
    · subst h
      simp [dictInsert, lookupKey, hne]
    · by_cases hk : k = k''
      · simp [dictInsert, lookupKey, h, hk]
      · simp [dictInsert, lookupKey, h, hk, ih]

/-- Unfolding one step of the post-notification memory update. -/
theorem update_memory_cons (memory : Memory) (now today : ℚ) (s : AnalyzedStock)
    (rest : List AnalyzedStock) :
    update_memory_for_sent memory now today (s :: rest) =
    update_memory_for_sent
      { sent_stocks := dictInsert s.ticker now memory.sent_stocks,
        tracked_prices := dictInsert s.ticker { price := s.current_price, date := today }
          memory.tracked_prices }
      now today rest := rfl

/-- The memory update leaves tickers outside the notified list alone. -/
theorem lookup_update_memory_of_not_mem (now today : ℚ) (stocks : List AnalyzedStock) :
    ∀ (memory : Memory) (tk : String), tk ∉ stocks.map AnalyzedStock.ticker →
      lookupKey tk (update_memory_for_sent memory now today stocks).sent_stocks =
        lookupKey tk memory.sent_stocks ∧
      lookupKey tk (update_memory_for_sent memory now today stocks).tracked_prices =
        lookupKey tk memory.tracked_prices := by
  induction stocks with
  | nil => exact fun memory tk _ => ⟨rfl, rfl⟩
  | cons s rest ih =>
    intro memory tk h
    simp only [List.map_cons, List.mem_cons, not_or] at h
    obtain ⟨h1, h2⟩ := h
    rw [update_memory_cons]
    obtain ⟨ihs, iht⟩ := ih _ tk h2
    exact ⟨ihs.trans (lookupKey_dictInsert_ne tk s.ticker h1 now memory.sent_stocks),
           iht.trans (lookupKey_dictInsert_ne tk s.ticker h1 _ memory.tracked_prices)⟩

/-- After the update, every notified stock (tickers unique within a run)
maps to the notification timestamp and its current price. -/
theorem lookup_update_memory_of_mem (now today : ℚ) (stocks : List AnalyzedStock) :
    ∀ (memory : Memory) (s : AnalyzedStock), s ∈ stocks →
      (stocks.map AnalyzedStock.ticker).Nodup →
      lookupKey s.ticker (update_memory_for_sent memory now today stocks).sent_stocks = some now ∧
      lookupKey s.ticker (update_memory_for_sent memory now today stocks).tracked_prices =
        some { price := s.current_price, date := today } := by
  induction stocks with
  | nil => exact fun memory s hs _ => absurd hs (List.not_mem_nil s)
  | cons x rest ih =>
    intro memory s hs hnd
    simp only [List.map_cons, List.nodup_cons] at hnd
    obtain ⟨hx, hndr⟩ := hnd
    rw [update_memory_cons]
    rcases List.mem_cons.mp hs with rfl | hmem
    · obtain ⟨hsent, htr⟩ := lookup_update_memory_of_not_mem now today rest _ s.ticker hx
      exact ⟨hsent.trans (lookupKey_dictInsert_self s.ticker now memory.sent_stocks),
             htr.trans (lookupKey_dictInsert_self s.ticker _ memory.tracked_prices)⟩
    · exact ih _ s hmem hndr

/-- C7: the write-back of the memory store is gated on delivery: on a
failed send the store (and the persisted copy) is exactly the one loaded
at run start and save_memory never runs, while on a successful send every
notified stock's sent_stocks timestamp becomes now and its tracked price
becomes its current price, and the store is persisted. -/
theorem C7_memory_write_gated (memory : Memory) (now today : ℚ)
    (stocks : List AnalyzedStock) :
    (main_notify_and_update false memory now today stocks = (memory, false)) ∧
    ((stocks.map AnalyzedStock.ticker).Nodup →
      (main_notify_and_update true memory now today stocks).2 = true ∧
      ∀ s ∈ stocks,
        lookupKey s.ticker
          (main_notify_and_update true memory now today stocks).1.sent_stocks = some now ∧
        lookupKey s.ticker
          (main_notify_and_update true memory now today stocks).1.tracked_prices =
          some { price := s.current_price, date := today }) := by
  refine ⟨rfl, fun hnd => ⟨rfl, fun s hs => ?_⟩⟩
  exact lookup_update_memory_of_mem now today stocks memory s hs hnd

/-- Closed witness for C7: one notified stock (ticker A, price 55) at day
3 on the empty store. -/
theorem C7_witness :
    main_notify_and_update false exMem 3 3 [exStockA] = (exMem, false) ∧
    lookupKey "A" (main_notify_and_update true exMem 3 3 [exStockA]).1.sent_stocks = some 3 ∧
    lookupKey "A" (main_notify_and_update true exMem 3 3 [exStockA]).1.tracked_prices =
      some { price := 55, date := 3 } := by
  have h := C7_memory_write_gated exMem 3 3 [exStockA]
  have hnd : (([exStockA]).map AnalyzedStock.ticker).Nodup := by simp
  have h2 := (h.2 hnd).2 exStockA (by simp)
  refine ⟨h.1, ?_, ?_⟩
  · simpa [exStockA, junkStock] using h2.1
  · simpa [exStockA, junkStock] using h2.2

end FallenAngel
